import Mathlib

/-!
Verification of the voikko-rs mediation layer (src/lib.rs, src/libvoikko.rs).

The external libvoikko engine is modelled as explicit oracle parameters
(functions or `Option` values standing for the pointers the C engine
returns).  Strings are modelled as `List Char`; a grapheme cluster is
modelled as a `List Char` and a segmented string as `List (List Char)`.
A Rust function that can panic or loop is modelled with an explicit
`RustOutcome` / fuel discipline.
-/

deriving instance DecidableEq for Except

namespace VoikkoRs

/-- Outcome of running a piece of Rust code: it can return a value,
panic (an `unwrap` failure), or fail to terminate (fuel exhaustion in
the model). -/
inductive RustOutcome (α : Type) where
  | ret (a : α)
  | panic
  | diverge
deriving DecidableEq

/-- The embedded C-string terminator byte; `ffi::CString::new` fails
exactly when the Rust string contains this character. -/
def nulChar : Char := Char.ofNat 0

/-- `hasNul s` models `ffi::CString::new(s).is_err()`: the string
contains an embedded NUL byte. -/
def hasNul (s : List Char) : Bool := s.any (fun c => c = nulChar)

/-- `voikko::SpellReturn` from src/lib.rs. -/
inductive SpellReturn where
  | SpellFailed
  | SpellOk
  | InternalError
  | CharsetConversionFailed
deriving DecidableEq

/-- `voikko::TokenType` from src/lib.rs. -/
inductive TokenType where
  | None
  | Word
  | Punctuation
  | Whitespace
  | Unknown
deriving DecidableEq

/-- `voikko::Token` from src/lib.rs (token text modelled as a char list). -/
structure Token where
  token_text : List Char
  token_type : TokenType
deriving DecidableEq

/-- `libvoikko::voikko_token_type` from src/libvoikko.rs. -/
inductive voikko_token_type where
  | TOKEN_NONE
  | TOKEN_WORD
  | TOKEN_PUNCTUATION
  | TOKEN_WHITESPACE
  | TOKEN_UNKNOWN
deriving DecidableEq

/-- `voikko::SentenceType` from src/lib.rs. -/
inductive SentenceType where
  | None
  | NoStart
  | Probable
  | Possible
deriving DecidableEq

/-- `libvoikko::voikko_sentence_type` from src/libvoikko.rs. -/
inductive voikko_sentence_type where
  | SENTENCE_NONE
  | SENTENCE_NO_START
  | SENTENCE_PROBABLE
  | SENTENCE_POSSIBLE
deriving DecidableEq

/-- `voikko::Sentence` from src/lib.rs. -/
structure Sentence where
  text : List Char
  next_start_type : SentenceType
deriving DecidableEq

/-- `voikko::GrammarError` from src/lib.rs. -/
structure GrammarError where
  code : Int
  start_pos : Nat
  length : Nat
  suggestions : List (List Char)
  description : List Char
deriving DecidableEq

/-- `voikko::HyphenateError` from src/lib.rs. -/
structure HyphenateError where
  message : List Char
deriving DecidableEq

/-- `voikko::Dictionary` from src/lib.rs. -/
structure Dictionary where
  language : List Char
  script : List Char
  variant : List Char
  description : List Char
deriving DecidableEq

/-- The raw grammar-error record handed back by
`voikkoNextGrammarErrorCstr` and read through the accessor functions in
src/libvoikko.rs lines 434-444: code, start position, length, the
(possibly null) suggestion array and the localized description. -/
structure GErr where
  code : Int
  start_pos : Nat
  length : Nat
  suggestions : Option (List (List Char))
  description : List Char
deriving DecidableEq

/-- An engine-side morphological analysis record
(`voikko_mor_analysis`): the (possibly null) key array and the
value-lookup accessor `voikko_mor_analysis_value_cstr`. -/
structure MorRec where
  keys : Option (List (List Char))
  value : List Char → List Char

/-- `voikko::Analysis`; the source uses a `HashMap`, modelled here as
the association list produced in insertion order (src/lib.rs line 81,
src/libvoikko.rs lines 381-397). -/
abbrev Analysis := List (List Char × List Char)

/-- `libvoikko::get_string_vec` from src/libvoikko.rs lines 323-342.
The array argument models the `*mut *mut c_char` (null vs a
null-terminated array).  The second component of the result records
whether `voikkoFreeCstrArray` was invoked: the source frees only in the
non-null branch and only when `free_memory` is set. -/
def get_string_vec (ptr : Option (List (List Char))) (free_memory : Bool) :
    List (List Char) × Bool :=
  match ptr with
  | none => ([], false)
  | some arr => (arr, free_memory)

/-- `libvoikko::spell` from src/libvoikko.rs lines 205-209:
`CString::new` failure (embedded NUL) is an `Err`, otherwise the engine
code is returned.  `engine` models `voikkoSpellCstr`. -/
def libvoikko_spell (engine : List Char → Int) (word : List Char) :
    Except Unit Int :=
  if hasNul word then Except.error () else Except.ok (engine word)

/-- `Voikko::spell` from src/lib.rs lines 346-358: the engine code is
classified `0/1/3/_`, and an `Err` from the binding layer is mapped to
`SpellFailed`. -/
def Voikko_spell (engine : List Char → Int) (word : List Char) : SpellReturn :=
  match libvoikko_spell engine word with
  | Except.ok code =>
      if code = 0 then SpellReturn.SpellFailed
      else if code = 1 then SpellReturn.SpellOk
      else if code = 3 then SpellReturn.CharsetConversionFailed
      else SpellReturn.InternalError
  | Except.error _ => SpellReturn.SpellFailed

/-- `libvoikko::suggest` from src/libvoikko.rs lines 211-216: NUL check,
then `get_string_vec(ptr, true)`.  `engine` models `voikkoSuggestCstr`;
the Bool in the result is the free-flag instrumentation of
`get_string_vec`. -/
def libvoikko_suggest (engine : List Char → Option (List (List Char)))
    (word : List Char) : Except Unit (List (List Char) × Bool) :=
  if hasNul word then Except.error ()
  else Except.ok (get_string_vec (engine word) true)

/-- `Voikko::suggest` from src/lib.rs lines 367-369:
`unwrap_or_else(|_| vec![])`. -/
def Voikko_suggest (engine : List Char → Option (List (List Char)))
    (word : List Char) : List (List Char) :=
  match libvoikko_suggest engine word with
  | Except.ok p => p.1
  | Except.error _ => []

/-- `libvoikko::list_supported_spelling_languages` from
src/libvoikko.rs lines 344-350: NUL check on the path, then
`get_string_vec(ptr, true)` (the source passes `true`, i.e. frees the
array). -/
def libvoikko_list_supported_spelling_languages (path : List Char)
    (arr : Option (List (List Char))) : Except Unit (List (List Char) × Bool) :=
  if hasNul path then Except.error ()
  else Except.ok (get_string_vec arr true)

/-- `libvoikko::list_supported_hyphenation_languages` from
src/libvoikko.rs lines 352-358 (also passes `true`). -/
def libvoikko_list_supported_hyphenation_languages (path : List Char)
    (arr : Option (List (List Char))) : Except Unit (List (List Char) × Bool) :=
  if hasNul path then Except.error ()
  else Except.ok (get_string_vec arr true)

/-- `libvoikko::list_supported_grammar_checking_languages` from
src/libvoikko.rs lines 360-366 (also passes `true`). -/
def libvoikko_list_supported_grammar_checking_languages (path : List Char)
    (arr : Option (List (List Char))) : Except Unit (List (List Char) × Bool) :=
  if hasNul path then Except.error ()
  else Except.ok (get_string_vec arr true)

/-- `voikko::list_supported_spelling_languages` from src/lib.rs lines
105-107: `unwrap_or_else(|_| vec![])`. -/
def list_supported_spelling_languages (path : List Char)
    (arr : Option (List (List Char))) : List (List Char) :=
  match libvoikko_list_supported_spelling_languages path arr with
  | Except.ok p => p.1
  | Except.error _ => []

/-- `voikko::list_supported_hyphenation_languages` from src/lib.rs
lines 116-118. -/
def list_supported_hyphenation_languages (path : List Char)
    (arr : Option (List (List Char))) : List (List Char) :=
  match libvoikko_list_supported_hyphenation_languages path arr with
  | Except.ok p => p.1
  | Except.error _ => []

/-- `voikko::list_supported_grammar_checking_languages` from src/lib.rs
lines 127-129. -/
def list_supported_grammar_checking_languages (path : List Char)
    (arr : Option (List (List Char))) : List (List Char) :=
  match libvoikko_list_supported_grammar_checking_languages path arr with
  | Except.ok p => p.1
  | Except.error _ => []

/-- `libvoikko::list_dicts` from src/libvoikko.rs lines 289-319: NUL
check on the path; a null array gives `Ok(vec![])`; otherwise each
record's four accessor strings are copied into a `Dictionary`. -/
def libvoikko_list_dicts (path : List Char) (arr : Option (List Dictionary)) :
    Except Unit (List Dictionary) :=
  if hasNul path then Except.error ()
  else
    match arr with
    | none => Except.ok []
    | some ds =>
        Except.ok (ds.map (fun d =>
          Dictionary.mk d.language d.script d.variant d.description))

/-- `voikko::list_dicts` from src/lib.rs lines 90-92. -/
def list_dicts (path : List Char) (arr : Option (List Dictionary)) :
    List Dictionary :=
  match libvoikko_list_dicts path arr with
  | Except.ok v => v
  | Except.error _ => []

/-- `libvoikko::analyze_word` from src/libvoikko.rs lines 368-404: NUL
check on the word; a null outer array gives `Ok(vec![])`; otherwise for
each record the key array is read with `get_string_vec(keys, false)`
and each `(key, value)` pair is inserted.  `CString::new(key)` inside
the loop propagates a NUL failure in any key as `Err` for the whole
call. -/
def libvoikko_analyze_word (word : List Char) (arr : Option (List MorRec)) :
    Except Unit (List Analysis) :=
  if hasNul word then Except.error ()
  else
    match arr with
    | none => Except.ok []
    | some recs =>
        if recs.any (fun r => ((get_string_vec r.keys false).1).any hasNul) then
          Except.error ()
        else
          Except.ok (recs.map (fun r =>
            ((get_string_vec r.keys false).1).map (fun k => (k, r.value k))))

/-- `Voikko::analyze` from src/lib.rs lines 525-527:
`unwrap_or_else(|_| vec![])`. -/
def Voikko_analyze (word : List Char) (arr : Option (List MorRec)) :
    List Analysis :=
  match libvoikko_analyze_word word arr with
  | Except.ok v => v
  | Except.error _ => []

/-- `libvoikko::hyphens` from src/libvoikko.rs lines 218-236: a NUL in
the word gives `Err(false)`, a null pointer from `voikkoHyphenateCstr`
gives `Err(false)`, otherwise the mask string is copied out.  The word
is carried pre-segmented into grapheme clusters; the NUL check runs on
its flattening (the underlying byte string). -/
def hyphens (word : List (List Char)) (ptr : Option (List (List Char))) :
    Except Bool (List (List Char)) :=
  if hasNul word.flatten then Except.error false
  else
    match ptr with
    | none => Except.error false
    | some m => Except.ok m

/-- The per-pair emission of `Voikko::hyphenate` (src/lib.rs lines
405-414): zip the word's graphemes with the mask's graphemes; `-`
emits the insertion string followed by the grapheme, `=` emits the
insertion string alone, anything else (the wildcard arm) emits the
grapheme unchanged. -/
def hyphChunks (word mask : List (List Char)) (hyphen : List Char) :
    List (List Char) :=
  (word.zip mask).map (fun p =>
    if p.2 = ['-'] then hyphen ++ p.1
    else if p.2 = ['='] then hyphen
    else p.1)

/-- `Voikko::hyphenate` from src/lib.rs lines 401-416: on any error
from `hyphens` return `Err(false)`; otherwise concatenate the emitted
chunks. -/
def hyphenate (word : List (List Char)) (ptr : Option (List (List Char)))
    (hyphen : List Char) : Except Bool (List Char) :=
  match hyphens word ptr with
  | Except.error _ => Except.error false
  | Except.ok hyph => Except.ok (hyphChunks word hyph hyphen).flatten

/-- Spec-side aligner, following the words of spec section 4.7 step 2
(space keeps the grapheme, `-` emits the insertion string then the
grapheme, `=` emits the insertion string alone); the spec gives no case
for any other symbol, so that branch is left empty.  Used only to state
the refinement claim C4 against the source definition. -/
def specHyphenateAligned (word mask : List (List Char)) (hyphen : List Char) :
    List Char :=
  ((word.zip mask).map (fun p =>
    if p.2 = [' '] then p.1
    else if p.2 = ['-'] then hyphen ++ p.1
    else if p.2 = ['='] then hyphen
    else [])).flatten

/-- Formalization of the round-trip removal in spec section 8 / claim
C3: at each mask position marked `-` or `=` remove one leading
occurrence of the insertion string from that position's emitted chunk;
other positions are kept as emitted. -/
def removeInserted (mask : List (List Char)) (hyphen : List Char)
    (chunks : List (List Char)) : List Char :=
  ((mask.zip chunks).map (fun p =>
    if p.1 = ['-'] ∨ p.1 = ['='] then p.2.drop hyphen.length
    else p.2)).flatten

/-- Message built in `libvoikko::insert_hyphens`
(src/libvoikko.rs line 248). -/
def nullPointerMessage : List Char :=
  "Error hyphenating string: null pointer from libvoikko".toList

/-- Models the `Display` rendering of `std::ffi::NulError` used by the
`From<NulError> for HyphenateError` conversion (src/lib.rs lines
301-307); the exact text carries no weight in any claim. -/
def nulByteMessage : List Char := "nul byte found in provided data".toList

/-- `libvoikko::insert_hyphens` from src/libvoikko.rs lines 238-257:
NUL in the word or the hyphen string propagates as a `HyphenateError`
(via `From<NulError>`); a null pointer from `voikkoInsertHyphensCstr`
yields the literal null-pointer `HyphenateError`; otherwise the engine
string is copied out.  `Voikko::hyphenate_new` (src/lib.rs lines
444-446) returns this result unchanged. -/
def insert_hyphens (word hyphen : List Char) (ptr : Option (List Char)) :
    Except HyphenateError (List Char) :=
  if hasNul word then Except.error (HyphenateError.mk nulByteMessage)
  else if hasNul hyphen then Except.error (HyphenateError.mk nulByteMessage)
  else
    match ptr with
    | none => Except.error (HyphenateError.mk nullPointerMessage)
    | some s => Except.ok s

/-- The enum conversion arm of `Voikko::tokens` (src/lib.rs lines
460-466); the wildcard arm maps `TOKEN_UNKNOWN` to `Unknown`. -/
def convToken : voikko_token_type → TokenType
  | voikko_token_type.TOKEN_NONE => TokenType.None
  | voikko_token_type.TOKEN_PUNCTUATION => TokenType.Punctuation
  | voikko_token_type.TOKEN_WHITESPACE => TokenType.Whitespace
  | voikko_token_type.TOKEN_WORD => TokenType.Word
  | voikko_token_type.TOKEN_UNKNOWN => TokenType.Unknown

/-- The enum conversion arm of `Voikko::sentences` (src/lib.rs lines
494-499); the wildcard arm maps `SENTENCE_NONE` to `None`. -/
def convSentence : voikko_sentence_type → SentenceType
  | voikko_sentence_type.SENTENCE_NO_START => SentenceType.NoStart
  | voikko_sentence_type.SENTENCE_POSSIBLE => SentenceType.Possible
  | voikko_sentence_type.SENTENCE_PROBABLE => SentenceType.Probable
  | voikko_sentence_type.SENTENCE_NONE => SentenceType.None

/-- The loop of `Voikko::tokens` (src/lib.rs lines 455-476), one
recursive step per iteration.  `o` models `voikkoNextTokenCstr` as a
function of the remaining text; the loop condition `offset < text.len()`
becomes `rem = []`; `libvoikko::next_token` calls
`CString::new(text).unwrap()` (src/libvoikko.rs line 264), which panics
on an embedded NUL; a sentinel `TOKEN_NONE` classification breaks
before pushing; otherwise the token is `take` of the reported character
length and the cursor advances by the same amount. -/
def tokensLoop (o : List Char → voikko_token_type × Nat) :
    Nat → List Char → RustOutcome (List Token)
  | 0, _ => RustOutcome.diverge
  | fuel+1, rem =>
    if rem = [] then RustOutcome.ret []
    else if hasNul rem then RustOutcome.panic
    else if convToken (o rem).1 = TokenType.None then RustOutcome.ret []
    else
      match tokensLoop o fuel (rem.drop (o rem).2) with
      | RustOutcome.ret ts =>
          RustOutcome.ret (Token.mk (rem.take (o rem).2) (convToken (o rem).1) :: ts)
      | RustOutcome.panic => RustOutcome.panic
      | RustOutcome.diverge => RustOutcome.diverge

/-- `Voikko::tokens` entry point: the loop starts at offset 0. -/
def tokens (o : List Char → voikko_token_type × Nat) (fuel : Nat)
    (text : List Char) : RustOutcome (List Token) :=
  tokensLoop o fuel text

/-- The loop of `Voikko::sentences` (src/lib.rs lines 485-513).  `o`
models `voikkoNextSentenceStartCstr` applied to the remaining suffix;
the condition is `offset < text.chars().count() && next_start_type !=
None`; `libvoikko::next_sentence` calls `CString::new(..).unwrap()`
(src/libvoikko.rs line 280), which panics on NUL; the sentence built
from the current slice carries the freshly computed classification and
is pushed unconditionally before the cursor advances. -/
def sentencesLoop (o : List Char → voikko_sentence_type × Nat) :
    Nat → List Char → Nat → SentenceType → RustOutcome (List Sentence)
  | 0, _, _, _ => RustOutcome.diverge
  | fuel+1, text, offset, ty =>
    if offset < text.length ∧ ty ≠ SentenceType.None then
      if hasNul (text.drop offset) then RustOutcome.panic
      else
        match sentencesLoop o fuel text (offset + (o (text.drop offset)).2)
            (convSentence (o (text.drop offset)).1) with
        | RustOutcome.ret ss =>
            RustOutcome.ret
              (Sentence.mk ((text.drop offset).take (o (text.drop offset)).2)
                (convSentence (o (text.drop offset)).1) :: ss)
        | RustOutcome.panic => RustOutcome.panic
        | RustOutcome.diverge => RustOutcome.diverge
    else RustOutcome.ret []

/-- `Voikko::sentences` entry point: offset 0, seeded with `NoStart`
(src/lib.rs line 488). -/
def sentences (o : List Char → voikko_sentence_type × Nat) (fuel : Nat)
    (text : List Char) : RustOutcome (List Sentence) :=
  sentencesLoop o fuel text 0 SentenceType.NoStart

/-- The Rust-side record built from a raw engine error record in
`libvoikko::get_grammar_errors` (src/libvoikko.rs lines 434-452): the
suggestion array is read with `get_string_vec(ptr, false)`. -/
def mkGE (e : GErr) : GrammarError :=
  { code := e.code
    start_pos := e.start_pos
    length := e.length
    suggestions := (get_string_vec e.suggestions false).1
    description := e.description }

/-- The loop of `libvoikko::get_grammar_errors` (src/libvoikko.rs lines
406-463).  `o` models `voikkoNextGrammarErrorCstr` as a function of the
character offset passed in (the full text buffer is passed unchanged
every iteration).  Each iteration rebuilds the text `CString` with
`.unwrap()` (line 415), which panics on an embedded NUL in the text; a
null record breaks the loop; a NUL in the description language aborts
with `Err` via the `?` on line 439; otherwise the record is pushed and
the source executes `offset += start_pos + error_length` (line 459).
The second result component is the trace of offsets passed to the
engine, the terminal null call included. -/
def ggLoop (text desc_lang : List Char) (o : Nat → Option GErr) :
    Nat → Nat → RustOutcome (Except Unit (List GrammarError) × List Nat)
  | 0, _ => RustOutcome.diverge
  | fuel+1, offset =>
    if hasNul text then RustOutcome.panic
    else
      match o offset with
      | none => RustOutcome.ret (Except.ok [], [offset])
      | some e =>
        if hasNul desc_lang then RustOutcome.ret (Except.error (), [offset])
        else
          match ggLoop text desc_lang o fuel (offset + e.start_pos + e.length) with
          | RustOutcome.ret (Except.ok errs, offs) =>
              RustOutcome.ret (Except.ok (mkGE e :: errs), offset :: offs)
          | RustOutcome.ret (Except.error u, offs) =>
              RustOutcome.ret (Except.error u, offset :: offs)
          | RustOutcome.panic => RustOutcome.panic
          | RustOutcome.diverge => RustOutcome.diverge

/-- `Voikko::grammar_errors` from src/lib.rs lines 539-541:
`unwrap_or_else(|_| vec![])` over `libvoikko::get_grammar_errors`,
which starts the loop at offset 0. -/
def grammar_errors (text desc : List Char) (o : Nat → Option GErr)
    (fuel : Nat) : RustOutcome (List GrammarError) :=
  match ggLoop text desc o fuel 0 with
  | RustOutcome.ret (Except.ok errs, _) => RustOutcome.ret errs
  | RustOutcome.ret (Except.error _, _) => RustOutcome.ret []
  | RustOutcome.panic => RustOutcome.panic
  | RustOutcome.diverge => RustOutcome.diverge

/-- An engine whose errors come from a fixed finite list, reporting the
first listed error whose start position is at or past the offset it is
asked to scan from; positions are absolute in the text, as the repo's
own fixture `test_gc` (src/tests.rs lines 144-170) demonstrates. -/
def errsOracle (errs : List GErr) (off : Nat) : Option GErr :=
  errs.find? (fun e => decide (off ≤ e.start_pos))

/-- Three absolute-position errors: the two from `test_gc`
(src/tests.rs) at (21,11) and (42,7), plus a third at (60,5) placed in
the gap the source's offset update skips over. -/
def demoErrs : List GErr :=
  [GErr.mk 8 21 11 none [], GErr.mk 9 42 7 none [], GErr.mk 5 60 5 none []]

/-- An engine that forever reports a zero-length error at position 0
when scanned from offset 0, and nothing from any later offset. -/
def stallOracle : Nat → Option GErr :=
  fun off => if off = 0 then some (GErr.mk 1 0 0 none []) else none

/-- The engine assumption exactly as claim C7 words it: every reported
error has `startPos + length` at least the offset the engine was called
with. -/
def claimOffsetAssumption (o : Nat → Option GErr) : Prop :=
  ∀ off e, o off = some e → off ≤ e.start_pos + e.length

/-- `get_grammar_errors` terminates on the given text/engine: some
finite fuel makes the loop return. -/
def ggTerminates (text desc : List Char) (o : Nat → Option GErr) : Prop :=
  ∃ fuel r, ggLoop text desc o fuel 0 = RustOutcome.ret r

/-- Dropping characters preserves NUL-freeness. -/
theorem hasNul_drop (l : List Char) (n : Nat) (h : hasNul l = false) :
    hasNul (l.drop n) = false := by
  simp only [hasNul, List.any_eq_false, decide_eq_true_eq] at h ⊢
  intro c hc
  exact h c (List.mem_of_mem_drop hc)

/-- The chunk emitted by the source's wildcard match agrees with the
spec's three-way case analysis on every mask symbol the engine can
produce. -/
theorem hyphChunks_matches_spec (hyphen : List Char) (word mask : List (List Char))
    (hmask : ∀ m ∈ mask, m = [' '] ∨ m = ['-'] ∨ m = ['=']) :
    (hyphChunks word mask hyphen).flatten = specHyphenateAligned word mask hyphen := by
  unfold hyphChunks specHyphenateAligned
  refine congrArg List.flatten (List.map_congr_left ?_)
  intro p hp
  have hm : p.2 ∈ mask := (List.of_mem_zip hp).2
  rcases hmask p.2 hm with h | h | h <;> rw [h]
  · rw [if_neg (by decide), if_neg (by decide), if_pos rfl]
  · rw [if_pos rfl, if_neg (by decide), if_pos rfl]
  · rw [if_neg (by decide), if_pos rfl, if_neg (by decide), if_neg (by decide), if_pos rfl]

/-- Claim C4: in `hyphenate`, given a successful mask made of the three
engine symbols, the output is exactly the spec's pairwise zip: the
grapheme on space, insertion string plus grapheme on `-`, insertion
string alone on `=`, concatenated in order. -/
theorem c4_hyphenate_matches_spec_zip (word mask : List (List Char))
    (hyphen : List Char) (hword : hasNul word.flatten = false)
    (hmask : ∀ m ∈ mask, m = [' '] ∨ m = ['-'] ∨ m = ['=']) :
    hyphenate word (some mask) hyphen =
      Except.ok (specHyphenateAligned word mask hyphen) := by
  unfold hyphenate hyphens
  rw [if_neg (by simp [hword])]
  exact congrArg Except.ok (hyphChunks_matches_spec hyphen word mask hmask)

/-- Witness for C4 at a concrete word, mask and insertion string. -/
theorem c4_hyphenate_zip_witness :
    hyphenate [['a'], ['b'], ['c']] (some [[' '], ['-'], ['=']]) ['-'] =
      Except.ok (specHyphenateAligned [['a'], ['b'], ['c']] [[' '], ['-'], ['=']] ['-']) :=
  c4_hyphenate_matches_spec_zip [['a'], ['b'], ['c']] [[' '], ['-'], ['=']] ['-']
    (by decide) (by decide)

/-- Counterexample to claim C3 as stated: for the word `ab` and the
equal-length mask `"= "`, the `=` position replaces the grapheme `a` by
the insertion string, so removing the insertion string from the
positions implied by the mask yields `b`, not `ab`. -/
theorem c3_roundtrip_fails_on_replacing_mask :
    ([['a'], ['b']] : List (List Char)).length = ([['='], [' ']] : List (List Char)).length ∧
    removeInserted [['='], [' ']] ['-'] (hyphChunks [['a'], ['b']] [['='], [' ']] ['-']) ≠
      ([['a'], ['b']] : List (List Char)).flatten := by
  constructor
  · rfl
  · decide

/-- Claim C3 as amended: for every word and equal-grapheme-length mask
containing no `=` symbol, inserting the mask's hyphens via `hyphenate`'s
chunk construction and then removing the insertion string from the
positions implied by the mask reconstructs the original word exactly. -/
theorem c3_roundtrip_without_replacement (hyphen : List Char) :
    ∀ (word mask : List (List Char)), word.length = mask.length →
      (∀ m ∈ mask, m ≠ ['=']) →
      removeInserted mask hyphen (hyphChunks word mask hyphen) = word.flatten := by
  intro word
  induction word with
  | nil =>
    intro mask hlen _
    cases mask with
    | nil => rfl
    | cons m ms => simp at hlen
  | cons w ws ih =>
    intro mask hlen hmask
    cases mask with
    | nil => simp at hlen
    | cons m ms =>
      have hne : m ≠ ['='] := hmask m (by simp)
      have hlen' : ws.length = ms.length := by simpa using hlen
      have hrest : ∀ x ∈ ms, x ≠ ['='] :=
        fun x hx => hmask x (List.mem_cons_of_mem _ hx)
      have hrec := ih ms hlen' hrest
      simp only [hyphChunks, removeInserted, List.zip_cons_cons, List.map_cons,
        List.flatten_cons] at hrec ⊢
      by_cases hm : m = ['-']
      · subst hm
        rw [if_pos rfl, if_pos (Or.inl rfl), List.drop_left, hrec]
      · rw [if_neg hm, if_neg hne, if_neg (by exact fun h => h.elim hm hne), hrec]

/-- Witness for the amended C3 on a concrete word and `=`-free mask. -/
theorem c3_roundtrip_witness :
    ([['a'], ['b']] : List (List Char)).length = ([['-'], [' ']] : List (List Char)).length ∧
    removeInserted [['-'], [' ']] ['-'] (hyphChunks [['a'], ['b']] [['-'], [' ']] ['-']) =
      ([['a'], ['b']] : List (List Char)).flatten :=
  ⟨rfl, c3_roundtrip_without_replacement ['-'] [['a'], ['b']] [['-'], [' ']]
    (by decide) (by decide)⟩

/-- Counterexample to claim C5 as stated: when the engine returns a
null mask, `Voikko::hyphenate` fails with the plain boolean error
`Err(false)` of its `Result<String, bool>` type — the failure value is
not a `HyphenateError` (that surface belongs to `hyphenate_new` /
`insert_hyphens`). -/
theorem c5_null_mask_error_is_bool :
    hyphenate [['a'], ['b']] none ['-'] = Except.error false := rfl

/-- Claim C5 as amended: a null hyphenation mask is a hard failure —
`hyphenate` returns the error result `Err(false)`, never a success and
never an empty string, while the `HyphenateError` surface for a null
engine result belongs to `insert_hyphens` (`hyphenate_new`). -/
theorem c5_null_mask_hard_failure (word : List (List Char)) (hyphen : List Char)
    (w h : List Char) (hw : hasNul w = false) (hh : hasNul h = false) :
    hyphenate word none hyphen = Except.error false ∧
    insert_hyphens w h none = Except.error (HyphenateError.mk nullPointerMessage) := by
  constructor
  · unfold hyphenate hyphens
    cases hnul : hasNul word.flatten <;> simp [hnul]
  · unfold insert_hyphens
    rw [if_neg (by simp [hw]), if_neg (by simp [hh])]

/-- Witness for the amended C5 at concrete inputs. -/
theorem c5_null_mask_witness :
    hyphenate [['a']] none ['-'] = Except.error false ∧
    insert_hyphens ['a'] ['-'] none = Except.error (HyphenateError.mk nullPointerMessage) :=
  c5_null_mask_hard_failure [['a']] ['-'] ['a'] ['-'] (by decide) (by decide)

/-- Loop invariant for `Voikko::tokens`: on NUL-free text, with an
engine that classifies every nonempty remainder as a real token of at
least one character, the loop returns, its tokens tile the input
exactly, and no emitted token has the sentinel kind. -/
theorem tokensLoop_partition (o : List Char → voikko_token_type × Nat)
    (H0 : ∀ rem : List Char, rem ≠ [] → convToken (o rem).1 ≠ TokenType.None)
    (H1 : ∀ rem : List Char, rem ≠ [] → 1 ≤ (o rem).2) :
    ∀ fuel rem, rem.length < fuel → hasNul rem = false →
      ∃ toks, tokensLoop o fuel rem = RustOutcome.ret toks ∧
        (toks.map Token.token_text).flatten = rem ∧
        ∀ t ∈ toks, t.token_type ≠ TokenType.None := by
  intro fuel
  induction fuel with
  | zero => intro rem h; exact absurd h (Nat.not_lt_zero _)
  | succ n ih =>
    intro rem hlen hnul
    by_cases hrem : rem = []
    · subst hrem
      exact ⟨[], rfl, rfl, by simp⟩
    · have hN := H0 rem hrem
      have hl := H1 rem hrem
      have hpos : 0 < rem.length := List.length_pos.mpr hrem
      have hdl : (rem.drop (o rem).2).length < n := by
        have hle : rem.length ≤ n := Nat.lt_succ_iff.mp hlen
        simp only [List.length_drop]
        omega
      obtain ⟨toks, heq, hflat, hnone⟩ :=
        ih (rem.drop (o rem).2) hdl (hasNul_drop rem (o rem).2 hnul)
      refine ⟨Token.mk (rem.take (o rem).2) (convToken (o rem).1) :: toks, ?_, ?_, ?_⟩
      · simp only [tokensLoop, if_neg hrem, hnul, Bool.false_eq_true, if_false,
          if_neg hN, heq]
      · simp only [List.map_cons, List.flatten_cons, hflat]
        exact List.take_append_drop _ rem
      · intro t ht
        rcases List.mem_cons.mp ht with h | h
        · subst h; exact hN
        · exact hnone t h

/-- Claim C2: for NUL-free input text and an engine that returns the
sentinel only at end of text and positive token lengths, the token
slices produced by `tokens` concatenate back to exactly the input (no
gaps, no overlaps), and no emitted token has the sentinel kind
`TokenType.None`. -/
theorem c2_tokens_partition_input (o : List Char → voikko_token_type × Nat)
    (text : List Char) (htext : hasNul text = false)
    (H0 : ∀ rem : List Char, rem ≠ [] → convToken (o rem).1 ≠ TokenType.None)
    (H1 : ∀ rem : List Char, rem ≠ [] → 1 ≤ (o rem).2) :
    ∃ toks, tokens o (text.length + 1) text = RustOutcome.ret toks ∧
      (toks.map Token.token_text).flatten = text ∧
      ∀ t ∈ toks, t.token_type ≠ TokenType.None :=
  tokensLoop_partition o H0 H1 (text.length + 1) text (Nat.lt_succ_self _) htext

/-- Witness for C2: a single-character-word engine on the text `ab`. -/
theorem c2_tokens_partition_witness :
    ∃ toks, tokens (fun _ => (voikko_token_type.TOKEN_WORD, 1))
        ((['a', 'b'] : List Char).length + 1) ['a', 'b'] = RustOutcome.ret toks ∧
      (toks.map Token.token_text).flatten = ['a', 'b'] ∧
      ∀ t ∈ toks, t.token_type ≠ TokenType.None :=
  c2_tokens_partition_input (fun _ => (voikko_token_type.TOKEN_WORD, 1)) ['a', 'b']
    (by decide) (fun rem _ => by simp [convToken]) (fun rem _ => by simp)

/-- Claim C10: when the engine classifies a step as the terminal
sentinel (`SENTENCE_NONE`) with a positive reported length, the
sentence built from that slice is still appended — the loop from that
state returns exactly that one `Sentence`, carrying the slice's text
and `next_start_type = None` — unlike the tokenizer, which, at a step
the engine classifies `TOKEN_NONE`, returns without appending. -/
theorem c10_sentinel_sentence_appended
    (o : List Char → voikko_sentence_type × Nat)
    (o2 : List Char → voikko_token_type × Nat)
    (text rem : List Char) (offset l fuel fuel2 : Nat) (ty : SentenceType)
    (hoff : offset < text.length) (hty : ty ≠ SentenceType.None)
    (hnul : hasNul (text.drop offset) = false)
    (ho : o (text.drop offset) = (voikko_sentence_type.SENTENCE_NONE, l))
    (_hl : 0 < l)
    (hrem : rem ≠ []) (hnul2 : hasNul rem = false)
    (ho2 : (o2 rem).1 = voikko_token_type.TOKEN_NONE) :
    sentencesLoop o (fuel + 2) text offset ty =
      RustOutcome.ret [Sentence.mk ((text.drop offset).take l) SentenceType.None] ∧
    tokensLoop o2 (fuel2 + 1) rem = RustOutcome.ret [] := by
  constructor
  · have hcond : offset < text.length ∧ ty ≠ SentenceType.None := ⟨hoff, hty⟩
    simp only [sentencesLoop, if_pos hcond, hnul, Bool.false_eq_true, if_false, ho,
      convSentence, ne_eq, not_true_eq_false, and_false]
  · simp only [tokensLoop, if_neg hrem, hnul2, Bool.false_eq_true, if_false, ho2,
      convToken, if_true]

/-- Witness for C10 at a concrete engine and text. -/
theorem c10_sentinel_sentence_witness :
    sentencesLoop (fun _ => (voikko_sentence_type.SENTENCE_NONE, 1)) 2 ['a', 'b'] 0
        SentenceType.NoStart =
      RustOutcome.ret [Sentence.mk ((['a', 'b'] : List Char).drop 0 |>.take 1)
        SentenceType.None] ∧
    tokensLoop (fun _ => (voikko_token_type.TOKEN_NONE, 0)) 1 ['a'] = RustOutcome.ret [] :=
  c10_sentinel_sentence_appended (fun _ => (voikko_sentence_type.SENTENCE_NONE, 1))
    (fun _ => (voikko_token_type.TOKEN_NONE, 0)) ['a', 'b'] ['a'] 0 1 0 0
    SentenceType.NoStart (by decide) (by decide) (by decide) rfl (by decide)
    (by decide) (by decide) rfl

/-- Claim C1, evaluated at the failing engine trace: with absolute
error positions (21,11), (42,7), (60,5) — the first two exactly as in
the repo's `test_gc` fixture — the source's `offset += start_pos +
error_length` makes the third engine call at offset 32 + 42 + 7 = 81
instead of the claimed `startPos + length = 49`, so the error starting
at 60 (which the engine would still report when scanned from 49) is
silently skipped. -/
theorem c1_grammar_offset_overshoot :
    ggLoop ['t'] ['e'] (errsOracle demoErrs) 4 0 =
      RustOutcome.ret
        (Except.ok [mkGE (GErr.mk 8 21 11 none []), mkGE (GErr.mk 9 42 7 none [])],
          [0, 32, 81]) ∧
    (32 : Nat) + 42 + 7 = 81 ∧ (42 : Nat) + 7 = 49 ∧
    (errsOracle demoErrs 49).isSome = true ∧ errsOracle demoErrs 81 = none := by
  decide

/-- Against `stallOracle` the grammar-error loop never returns: the
offset update `offset + 0 + 0` re-asks the engine from offset 0
forever. -/
theorem ggLoop_stall (fuel : Nat) :
    ggLoop ['a'] ['e'] stallOracle fuel 0 = RustOutcome.diverge := by
  induction fuel with
  | zero => rfl
  | succ n ih =>
    have h1 : hasNul ['a'] = false := by decide
    have h2 : hasNul ['e'] = false := by decide
    have h3 : stallOracle 0 = some (GErr.mk 1 0 0 none []) := rfl
    simp only [ggLoop, h1, h2, Bool.false_eq_true, if_false, h3, Nat.add_zero, ih]

/-- Counterexample to claim C7 as stated: the assumption "each reported
error has `startPos + length ≥` the previous offset" is satisfied by an
engine that forever reports a zero-length error at position 0, yet the
scanning loop never terminates on it. -/
theorem c7_assumption_insufficient_for_termination :
    claimOffsetAssumption stallOracle ∧ ¬ ggTerminates ['a'] ['e'] stallOracle := by
  constructor
  · intro off e h
    by_cases hoff : off = 0
    · subst hoff; exact Nat.zero_le _
    · simp [stallOracle, hoff] at h
  · rintro ⟨fuel, r, h⟩
    rw [ggLoop_stall fuel] at h
    exact RustOutcome.noConfusion h

/-- Loop invariant for `get_grammar_errors` on NUL-free inputs: if
every reported error makes positive progress (`startPos + length ≥ 1`)
and the engine reports nothing at or beyond offset `N`, then from any
start offset the loop returns with fuel covering the remaining
distance, the offset trace starts at that offset, is non-decreasing,
and has exactly one more entry (the terminal null call) than the error
list. -/
theorem ggLoop_bounded (text desc : List Char) (o : Nat → Option GErr) (N : Nat)
    (htext : hasNul text = false) (hdesc : hasNul desc = false)
    (hprog : ∀ off e, o off = some e → 1 ≤ e.start_pos + e.length)
    (hbound : ∀ off, N ≤ off → o off = none) :
    ∀ k off, N ≤ off + k →
      ∃ errs offs,
        ggLoop text desc o (k + 1) off = RustOutcome.ret (Except.ok errs, offs) ∧
        offs.head? = some off ∧ List.Chain' (· ≤ ·) offs ∧
        offs.length = errs.length + 1 := by
  intro k
  induction k with
  | zero =>
    intro off hoff
    have hnone := hbound off (by omega)
    refine ⟨[], [off], ?_, rfl, List.chain'_singleton off, rfl⟩
    simp only [ggLoop, htext, Bool.false_eq_true, if_false, hnone]
  | succ n ih =>
    intro off hoff
    cases he : o off with
    | none =>
      refine ⟨[], [off], ?_, rfl, List.chain'_singleton off, rfl⟩
      simp only [ggLoop, htext, Bool.false_eq_true, if_false, he]
    | some e =>
      have hp := hprog off e he
      obtain ⟨errs, offs, heq, hhead, hchain, hlen⟩ :=
        ih (off + e.start_pos + e.length) (by omega)
      refine ⟨mkGE e :: errs, off :: offs, ?_, rfl, ?_, by simp [hlen]⟩
      · have hstep : ggLoop text desc o (n + 1 + 1) off =
            if hasNul text = true then RustOutcome.panic
            else
              match o off with
              | none => RustOutcome.ret (Except.ok [], [off])
              | some e2 =>
                if hasNul desc = true then RustOutcome.ret (Except.error (), [off])
                else
                  match ggLoop text desc o (n + 1) (off + e2.start_pos + e2.length) with
                  | RustOutcome.ret (Except.ok errs2, offs2) =>
                      RustOutcome.ret (Except.ok (mkGE e2 :: errs2), off :: offs2)
                  | RustOutcome.ret (Except.error u, offs2) =>
                      RustOutcome.ret (Except.error u, off :: offs2)
                  | RustOutcome.panic => RustOutcome.panic
                  | RustOutcome.diverge => RustOutcome.diverge := rfl
        rw [hstep]
        simp only [htext, Bool.false_eq_true, if_false, he, hdesc, heq]
      · rw [List.chain'_cons']
        refine ⟨?_, hchain⟩
        intro y hy
        rw [hhead, Option.mem_some_iff] at hy
        omega

/-- Claim C7 as amended: `get_grammar_errors` terminates for every
finite input, provided each engine-reported error has `startPos +
length ≥ 1` and the engine reports no error once the offset passes the
end of the text (offset bound `N`); the offsets passed to successive
engine calls are non-decreasing and the loop makes exactly one engine
call per reported error plus the terminal null call. -/
theorem c7_termination_bounded (text desc : List Char) (o : Nat → Option GErr)
    (N : Nat) (htext : hasNul text = false) (hdesc : hasNul desc = false)
    (hprog : ∀ off e, o off = some e → 1 ≤ e.start_pos + e.length)
    (hbound : ∀ off, N ≤ off → o off = none) :
    ∃ errs offs,
      ggLoop text desc o (N + 1) 0 = RustOutcome.ret (Except.ok errs, offs) ∧
      List.Chain' (· ≤ ·) offs ∧ offs.length = errs.length + 1 := by
  obtain ⟨errs, offs, heq, _, hchain, hlen⟩ :=
    ggLoop_bounded text desc o N htext hdesc hprog hbound N 0 (by omega)
  exact ⟨errs, offs, heq, hchain, hlen⟩

/-- Witness for the amended C7: an engine reporting no errors at all
terminates after the single terminal call. -/
theorem c7_termination_witness :
    ∃ errs offs,
      ggLoop ['a'] ['e'] (fun _ => none) (0 + 1) 0 =
        RustOutcome.ret (Except.ok errs, offs) ∧
      List.Chain' (· ≤ ·) offs ∧ offs.length = errs.length + 1 :=
  c7_termination_bounded ['a'] ['e'] (fun _ => none) 0 (by decide) (by decide)
    (fun _ _ h => Option.noConfusion h) (fun _ _ => rfl)

/-- Counterexample to claim C6 as stated: on the NUL-containing word
`['a', NUL]` the spell check reports `SpellFailed` — the very variant
used for engine-reported misspellings (here the engine oracle would
have accepted the word) — the suggestion list is folded into the empty
list, and the tokenizer panics instead of failing recoverably. -/
theorem c6_nul_folded_and_panic :
    Voikko_spell (fun _ => 1) ['a', nulChar] = SpellReturn.SpellFailed ∧
    Voikko_spell (fun _ => 1) ['a', nulChar] = Voikko_spell (fun _ => 0) ['z'] ∧
    Voikko_suggest (fun _ => some [['x']]) ['a', nulChar] = [] ∧
    tokensLoop (fun _ => (voikko_token_type.TOKEN_WORD, 1)) 3 ['a', nulChar] =
      RustOutcome.panic := by
  decide

/-- Claim C6 as amended: a string with an embedded NUL is rejected
before any engine call wherever the conversion is checked — the result
is independent of the engine oracle (every engine argument below is
universally quantified and the outcome is a constant) — but the
failure is folded into `SpellFailed` for `spell`, into an empty list
for `suggest`, `analyze`, `list_dicts` and the three language-list
queries, and into `Err(false)` for `hyphens` and `hyphenate`; and
`tokens`, `sentences` and `get_grammar_errors` panic on NUL text (via
`CString::new(..).unwrap()`) instead of returning a recoverable
error. -/
theorem c6_nul_rejected_before_engine
    (eS eS2 : List Char → Int) (eSug : List Char → Option (List (List Char)))
    (o : List Char → voikko_token_type × Nat)
    (o2 : List Char → voikko_sentence_type × Nat)
    (og : Nat → Option GErr)
    (gw : List (List Char)) (ptr : Option (List (List Char)))
    (hyphen : List Char)
    (dictArr : Option (List Dictionary)) (langArr : Option (List (List Char)))
    (morArr : Option (List MorRec))
    (desc word : List Char) (fuel fs fg : Nat)
    (hword : hasNul word = true) (hgw : hasNul gw.flatten = true) :
    Voikko_spell eS word = SpellReturn.SpellFailed ∧
    Voikko_spell eS word = Voikko_spell eS2 word ∧
    Voikko_suggest eSug word = [] ∧
    Voikko_analyze word morArr = [] ∧
    list_dicts word dictArr = [] ∧
    list_supported_spelling_languages word langArr = [] ∧
    list_supported_hyphenation_languages word langArr = [] ∧
    list_supported_grammar_checking_languages word langArr = [] ∧
    hyphens gw ptr = Except.error false ∧
    hyphenate gw ptr hyphen = Except.error false ∧
    tokensLoop o (fuel + 1) word = RustOutcome.panic ∧
    sentences o2 (fs + 1) word = RustOutcome.panic ∧
    ggLoop word desc og (fg + 1) 0 = RustOutcome.panic := by
  have hspell : ∀ e : List Char → Int,
      Voikko_spell e word = SpellReturn.SpellFailed := by
    intro e
    unfold Voikko_spell libvoikko_spell
    rw [if_pos hword]
  have hne : word ≠ [] := by
    intro h
    subst h
    simp [hasNul] at hword
  have hpos : 0 < word.length := List.length_pos.mpr hne
  have hhyp : hyphens gw ptr = Except.error false := by
    unfold hyphens
    rw [if_pos hgw]
  refine ⟨hspell eS, (hspell eS).trans (hspell eS2).symm, ?_, ?_, ?_, ?_, ?_, ?_,
    hhyp, ?_, ?_, ?_, ?_⟩
  · unfold Voikko_suggest libvoikko_suggest
    rw [if_pos hword]
  · unfold Voikko_analyze libvoikko_analyze_word
    rw [if_pos hword]
  · unfold list_dicts libvoikko_list_dicts
    rw [if_pos hword]
  · unfold list_supported_spelling_languages
      libvoikko_list_supported_spelling_languages
    rw [if_pos hword]
  · unfold list_supported_hyphenation_languages
      libvoikko_list_supported_hyphenation_languages
    rw [if_pos hword]
  · unfold list_supported_grammar_checking_languages
      libvoikko_list_supported_grammar_checking_languages
    rw [if_pos hword]
  · unfold hyphenate
    rw [hhyp]
  · simp only [tokensLoop, if_neg hne, hword, if_true]
  · have hcond : 0 < word.length ∧ SentenceType.NoStart ≠ SentenceType.None :=
      ⟨hpos, by simp⟩
    simp only [sentences, sentencesLoop, if_pos hcond, List.drop_zero, hword, if_true]
  · simp only [ggLoop, hword, if_true]

/-- Witness for the amended C6 at concrete inputs. -/
theorem c6_nul_witness :
    Voikko_spell (fun _ => 1) ['a', nulChar] = SpellReturn.SpellFailed ∧
    Voikko_spell (fun _ => 1) ['a', nulChar] = Voikko_spell (fun _ => 3) ['a', nulChar] ∧
    Voikko_suggest (fun _ => some [['x']]) ['a', nulChar] = [] ∧
    Voikko_analyze ['a', nulChar] (some []) = [] ∧
    list_dicts ['a', nulChar] (some []) = [] ∧
    list_supported_spelling_languages ['a', nulChar] (some [['f', 'i']]) = [] ∧
    list_supported_hyphenation_languages ['a', nulChar] (some [['f', 'i']]) = [] ∧
    list_supported_grammar_checking_languages ['a', nulChar] (some [['f', 'i']]) = [] ∧
    hyphens [['a', nulChar]] (some [[' ']]) = Except.error false ∧
    hyphenate [['a', nulChar]] (some [[' ']]) ['-'] = Except.error false ∧
    tokensLoop (fun _ => (voikko_token_type.TOKEN_WORD, 1)) (0 + 1) ['a', nulChar] =
      RustOutcome.panic ∧
    sentences (fun _ => (voikko_sentence_type.SENTENCE_NO_START, 1)) (0 + 1)
      ['a', nulChar] = RustOutcome.panic ∧
    ggLoop ['a', nulChar] ['e'] (fun _ => none) (0 + 1) 0 = RustOutcome.panic :=
  c6_nul_rejected_before_engine (fun _ => 1) (fun _ => 3) (fun _ => some [['x']])
    (fun _ => (voikko_token_type.TOKEN_WORD, 1))
    (fun _ => (voikko_sentence_type.SENTENCE_NO_START, 1)) (fun _ => none)
    [['a', nulChar]] (some [[' ']]) ['-'] (some []) (some [['f', 'i']]) (some [])
    ['e'] ['a', nulChar] 0 0 0 (by decide) (by decide)

/-- Claim C8: every list-producing operation maps a null pointer or
terminal sentinel from the engine to an empty sequence, not an error:
`get_string_vec` on null, `suggest` on a null suggestion array,
`list_dicts` on a null dictionary array, the three language-list
queries on null arrays, `analyze` on a null or empty outer analysis
array, and a grammar error whose suggestion array is null. -/
theorem c8_null_sentinel_empty_results :
    (∀ b : Bool, (get_string_vec none b).1 = []) ∧
    (∀ w : List Char, Voikko_suggest (fun _ => none) w = []) ∧
    (∀ p : List Char, list_dicts p none = []) ∧
    (∀ p : List Char, list_supported_spelling_languages p none = []) ∧
    (∀ p : List Char, list_supported_hyphenation_languages p none = []) ∧
    (∀ p : List Char, list_supported_grammar_checking_languages p none = []) ∧
    (∀ w : List Char, Voikko_analyze w none = []) ∧
    (∀ w : List Char, Voikko_analyze w (some []) = []) ∧
    (∀ (c : Int) (s l : Nat) (d : List Char),
      (mkGE (GErr.mk c s l none d)).suggestions = []) := by
  refine ⟨fun b => rfl, fun w => ?_, fun p => ?_, fun p => ?_, fun p => ?_,
    fun p => ?_, fun w => ?_, fun w => ?_, fun c s l d => rfl⟩
  · unfold Voikko_suggest libvoikko_suggest
    cases h : hasNul w <;> simp [h, get_string_vec]
  · unfold list_dicts libvoikko_list_dicts
    cases h : hasNul p <;> simp [h]
  · unfold list_supported_spelling_languages libvoikko_list_supported_spelling_languages
    cases h : hasNul p <;> simp [h, get_string_vec]
  · unfold list_supported_hyphenation_languages libvoikko_list_supported_hyphenation_languages
    cases h : hasNul p <;> simp [h, get_string_vec]
  · unfold list_supported_grammar_checking_languages libvoikko_list_supported_grammar_checking_languages
    cases h : hasNul p <;> simp [h, get_string_vec]
  · unfold Voikko_analyze libvoikko_analyze_word
    cases h : hasNul w <;> simp [h]
  · unfold Voikko_analyze libvoikko_analyze_word
    cases h : hasNul w <;> simp [h]

/-- Counterexample to claim C9 as stated: the spelling-language-list
fetcher passes `free_memory = true` and therefore invokes
`voikkoFreeCstrArray` on its non-null array — an array the spec
designates a transient view the caller must not free. -/
theorem c9_language_list_array_freed :
    libvoikko_list_supported_spelling_languages [] (some [['f', 'i']]) =
      Except.ok ([['f', 'i']], true) := rfl

/-- Claim C9 as amended: the caller-frees flag is passed for the
suggestion array and for all three language-list arrays (each non-null
such array is freed), while the no-free flag is passed exactly at the
view extractions — grammar-error suggestion arrays and morphological
key arrays — which are never freed. -/
theorem c9_free_flags_per_operation (p w : List Char) (l : List (List Char))
    (s : Option (List (List Char))) (hp : hasNul p = false) (hw : hasNul w = false) :
    libvoikko_suggest (fun _ => some l) w = Except.ok (l, true) ∧
    libvoikko_list_supported_spelling_languages p (some l) = Except.ok (l, true) ∧
    libvoikko_list_supported_hyphenation_languages p (some l) = Except.ok (l, true) ∧
    libvoikko_list_supported_grammar_checking_languages p (some l) = Except.ok (l, true) ∧
    (get_string_vec s false).2 = false := by
  refine ⟨?_, ?_, ?_, ?_, ?_⟩
  · unfold libvoikko_suggest
    rw [if_neg (by simp [hw])]
    rfl
  · unfold libvoikko_list_supported_spelling_languages
    rw [if_neg (by simp [hp])]
    rfl
  · unfold libvoikko_list_supported_hyphenation_languages
    rw [if_neg (by simp [hp])]
    rfl
  · unfold libvoikko_list_supported_grammar_checking_languages
    rw [if_neg (by simp [hp])]
    rfl
  · cases s <;> rfl

/-- Witness for the amended C9 at concrete inputs. -/
theorem c9_free_flags_witness :
    libvoikko_suggest (fun _ => some [['f', 'i']]) ['a'] =
      Except.ok ([['f', 'i']], true) ∧
    libvoikko_list_supported_spelling_languages [] (some [['f', 'i']]) =
      Except.ok ([['f', 'i']], true) ∧
    libvoikko_list_supported_hyphenation_languages [] (some [['f', 'i']]) =
      Except.ok ([['f', 'i']], true) ∧
    libvoikko_list_supported_grammar_checking_languages [] (some [['f', 'i']]) =
      Except.ok ([['f', 'i']], true) ∧
    (get_string_vec none false).2 = false :=
  c9_free_flags_per_operation [] ['a'] [['f', 'i']] none (by decide) (by decide)

end VoikkoRs
